import Mathlib

/-!
Verification development for the Nazara Engine forward render queue
(`src/Nazara/Graphics/ForwardRenderQueue.cpp`).

The C++ source is shallowly embedded: pure computations become Lean
functions, the queue's mutable members become an explicit state record,
and the function-local `static` caches of `ForwardRenderQueue::Sort`
become an explicit `SortCaches` record threaded through calls.  Machine
floats are modelled over `ℚ` (exact arithmetic); where the code
reinterprets float bits the bit pattern is taken as a `Nat` parameter.
64-bit unsigned arithmetic is `Nat` reduced modulo `2 ^ 64` at each
operation.  Definitions that correspond to code declared only in headers
that are not among the sources carry a doc comment starting with
`Modelled from the spec:`.
-/

namespace Nz

/-- Embedding of `Nz::Vector2f`; float components are modelled over `ℚ`. -/
structure Vector2f where
  x : ℚ
  y : ℚ
deriving DecidableEq, Repr, Inhabited

/-- Embedding of `Nz::Vector3f`; float components are modelled over `ℚ`. -/
structure Vector3f where
  x : ℚ
  y : ℚ
  z : ℚ
deriving DecidableEq, Repr, Inhabited

/-- Componentwise addition of vectors (used by `AddMesh` for
`transformMatrix.GetTranslation() + meshAABB.GetCenter()`). -/
instance : Add Vector3f :=
  ⟨fun a b => ⟨a.x + b.x, a.y + b.y, a.z + b.z⟩⟩

/-- Embedding of `Vector3f::SquaredDistance`: squared Euclidean distance. -/
def Vector3f.SquaredDistance (a b : Vector3f) : ℚ :=
  (b.x - a.x) ^ 2 + (b.y - a.y) ^ 2 + (b.z - a.z) ^ 2

/-- Dot product of two vectors. -/
def Vector3f.DotProduct (a b : Vector3f) : ℚ :=
  a.x * b.x + a.y * b.y + a.z * b.z

/-- Embedding of `Nz::Planef` as a normal and a scalar offset. -/
structure Planef where
  normal : Vector3f
  distance : ℚ
deriving DecidableEq, Repr, Inhabited

/-- Modelled from the spec: `Planef::Distance(point)` (the maths module is
not among the sources).  Per §6 of the spec the near-plane interface is
`Distance(point) → float`, positive in front of the plane; scenario S4
pins `Distance(plane, p) = p.z` for the plane through the origin with
normal `+z`, which the affine form `normal ⬝ p + distance` satisfies. -/
def Planef.Distance (p : Planef) (point : Vector3f) : ℚ :=
  p.normal.DotProduct point + p.distance

/-- Embedding of `Nz::Spheref` as used here: only the constructor
`Spheref(position, radius)` and `GetPosition()` are exercised. -/
structure Spheref where
  position : Vector3f
  radius : ℚ
deriving DecidableEq, Repr, Inhabited

/-- Embedding of `Spheref::GetPosition`. -/
def Spheref.GetPosition (s : Spheref) : Vector3f := s.position

/-- Modelled from the spec: `Nz::Boxf` (maths module, not among the
sources), reduced to the two accessors `AddMesh` uses. -/
structure Boxf where
  center : Vector3f
  squaredRadius : ℚ
deriving DecidableEq, Repr, Inhabited

/-- Accessor `Boxf::GetCenter`. -/
def Boxf.GetCenter (b : Boxf) : Vector3f := b.center

/-- Accessor `Boxf::GetSquaredRadius`. -/
def Boxf.GetSquaredRadius (b : Boxf) : ℚ := b.squaredRadius

/-- Modelled from the spec: `Nz::Matrix4f` (maths module, not among the
sources), reduced to the single accessor `GetTranslation` used by
`AddMesh`. -/
structure Matrix4f where
  translation : Vector3f
deriving DecidableEq, Repr, Inhabited

/-- Accessor `Matrix4f::GetTranslation`. -/
def Matrix4f.GetTranslation (m : Matrix4f) : Vector3f := m.translation

/-- Embedding of `Nz::Recti`, the scissor rectangle.  It is carried
through the queue unexamined. -/
structure Recti where
  x : Int
  y : Int
  width : Int
  height : Int
deriving DecidableEq, Repr, Inhabited

/-- Embedding of `Nz::Color`, normalised to `[0,1]` components. -/
structure Color where
  r : ℚ
  g : ℚ
  b : ℚ
  a : ℚ
deriving DecidableEq, Repr, Inhabited

/-- Embedding of `Color::White` (opaque white). -/
def Color.White : Color := ⟨1, 1, 1, 1⟩

/-- Modelled from the spec: `ForwardRenderQueue::ComputeColor` (inline
helper declared in the header, not among the sources).  Per §4.1 of the
spec an alpha stream yields the colour `(1,1,1,a)`. -/
def ComputeColor (alpha : ℚ) : Color := ⟨1, 1, 1, alpha⟩

/-- Embedding of `Nz::Material`.  Pointer identity is modelled by the
`id` field; the accessors the queue consumes are plain fields.  Pipeline,
shader and texture objects are opaque handles (`Nat`, `Option Nat` for
nullable texture pointers). -/
structure Material where
  id : Nat
  depthSortingEnabled : Bool
  pipeline : Nat
  shader : Nat
  diffuseMap : Option Nat
deriving DecidableEq, Repr, Inhabited

/-- Accessor `Material::IsDepthSortingEnabled`. -/
def Material.IsDepthSortingEnabled (m : Material) : Bool := m.depthSortingEnabled

/-- Accessor `Material::GetPipeline` (opaque pipeline handle). -/
def Material.GetPipeline (m : Material) : Nat := m.pipeline

/-- Accessor `Material::GetShader` (opaque shader handle). -/
def Material.GetShader (m : Material) : Nat := m.shader

/-- Accessor `Material::GetDiffuseMap` (nullable texture handle). -/
def Material.GetDiffuseMap (m : Material) : Option Nat := m.diffuseMap

/-- Embedding of `ForwardRenderQueue::BillboardData` (declared in the
header): one packed billboard instance `{color, center, size, sinCos}`.
The default value models C++ value-initialisation used by
`std::vector::resize`. -/
structure BillboardData where
  color : Color
  center : Vector3f
  size : Vector2f
  sinCos : Vector2f
deriving DecidableEq, Repr

instance : Inhabited BillboardData :=
  ⟨{ color := ⟨0, 0, 0, 0⟩, center := ⟨0, 0, 0⟩, size := ⟨0, 0⟩, sinCos := ⟨0, 0⟩ }⟩

/-- Embedding of `VertexStruct_XYZ_Color_UV` reduced to the one field the
queue reads (`vertices[0].position`). -/
structure VertexStruct where
  position : Vector3f
deriving DecidableEq, Repr, Inhabited

/-- Embedding of `MeshData`: vertex buffer handle, nullable index buffer
handle, primitive mode. -/
structure MeshData where
  vertexBuffer : Nat
  indexBuffer : Option Nat
  primitiveMode : Nat
deriving DecidableEq, Repr, Inhabited

/-- Record of the `basicSprites` / `depthSortedSprites` buckets
(`SpriteChain`), in the brace-initialisation order of `AddSprites`. -/
structure SpriteChain where
  layerIndex : Int
  spriteCount : Nat
  material : Material
  overlay : Option Nat
  vertices : List VertexStruct
  scissorRect : Recti
deriving DecidableEq, Repr, Inhabited

/-- Record of the `billboards` bucket (`BillboardChain`): an opaque
billboard batch descriptor `(billboardCount, billboardIndex)` into the
pool `m_billboards`. -/
structure BillboardChain where
  layerIndex : Int
  material : Material
  scissorRect : Recti
  billboardCount : Nat
  billboardIndex : Nat
deriving DecidableEq, Repr, Inhabited

/-- Record of the `depthSortedBillboards` bucket (`Billboard`): one
transparent billboard instance. -/
structure Billboard where
  layerIndex : Int
  material : Material
  scissorRect : Recti
  data : BillboardData
deriving DecidableEq, Repr, Inhabited

/-- Record of the `models` / `depthSortedModels` buckets (`Model`), in
the brace-initialisation order of `AddMesh`. -/
structure Model where
  layerIndex : Int
  meshData : MeshData
  material : Material
  transformMatrix : Matrix4f
  scissorRect : Recti
  obbSphere : Spheref
deriving DecidableEq, Repr, Inhabited

/-- Modelled from the spec: the per-material billboard entry of the
legacy per-layer containers (`BatchedBillboardEntry`, declared in the
header, not among the sources).  Only the `billboards` vector the .cpp
touches is modelled. -/
structure BatchedBillboardEntry where
  billboards : List BillboardData
deriving DecidableEq, Repr, Inhabited

/-- Modelled from the spec: the per-pipeline billboard entry of the
legacy per-layer containers (declared in the header).  `materialMap` maps
material identities to entries; `enabled` is the retention flag `Clear`
manipulates. -/
structure BillboardPipelineEntry where
  enabled : Bool
  materialMap : List (Material × BatchedBillboardEntry)
deriving DecidableEq, Repr, Inhabited

/-- Modelled from the spec: the per-overlay sprite-chain entry of the
legacy per-layer containers (declared in the header).  The sprite-chain
payload is opaque to every operation in the .cpp except clearing, so it
is modelled as an opaque token list. -/
structure SpriteOverlayEntry where
  spriteChains : List Nat
deriving DecidableEq, Repr, Inhabited

/-- Modelled from the spec: the per-material sprite entry of the legacy
per-layer containers (declared in the header). -/
structure SpriteMatEntry where
  enabled : Bool
  overlayMap : List (Option Nat × SpriteOverlayEntry)
deriving DecidableEq, Repr, Inhabited

/-- Modelled from the spec: the per-pipeline sprite entry of the legacy
per-layer containers (declared in the header). -/
structure SpritePipelineEntry where
  enabled : Bool
  materialMap : List (Material × SpriteMatEntry)
deriving DecidableEq, Repr, Inhabited

/-- Modelled from the spec: one mesh-instance entry of the legacy
per-layer model containers (declared in the header). -/
structure MeshInstanceEntry where
  instances : List Matrix4f
deriving DecidableEq, Repr, Inhabited

/-- Modelled from the spec: the per-material model entry of the legacy
per-layer containers (declared in the header); `meshMap` maps `MeshData`
to instance lists (`MeshInstanceContainer`). -/
structure ModelMatEntry where
  enabled : Bool
  meshMap : List (MeshData × MeshInstanceEntry)
deriving DecidableEq, Repr, Inhabited

/-- Modelled from the spec: the per-pipeline model entry of the legacy
per-layer containers (declared in the header). -/
structure ModelPipelineEntry where
  maxInstanceCount : Nat
  materialMap : List (Material × ModelMatEntry)
deriving DecidableEq, Repr, Inhabited

/-- Modelled from the spec: legacy per-layer depth-sorted mesh data
(declared in the header); `SortForOrthographic` / `SortForPerspective`
read only `obbSphere`. -/
structure DSMeshData where
  obbSphere : Spheref
deriving DecidableEq, Repr, Inhabited

/-- Modelled from the spec: legacy per-layer depth-sorted sprite data
(declared in the header); the sorting comparators read only
`vertices[0].position`. -/
structure DSSpriteData where
  vertices : List VertexStruct
deriving DecidableEq, Repr, Inhabited

/-- Embedding of `ForwardRenderQueue::Layer` (declared in the header;
field set modelled from the members this .cpp accesses): the legacy
pipeline→material maps, the legacy depth-sorted index/data vectors, the
custom-drawable list and the soft-clear retention counter. -/
structure Layer where
  billboards : List (Nat × BillboardPipelineEntry)
  opaqueSprites : List (Nat × SpritePipelineEntry)
  opaqueModels : List (Nat × ModelPipelineEntry)
  depthSortedMeshes : List Nat
  depthSortedMeshData : List DSMeshData
  depthSortedSprites : List Nat
  depthSortedSpriteData : List DSSpriteData
  otherDrawables : List Nat
  clearCount : Nat
deriving DecidableEq, Repr

instance : Inhabited Layer :=
  ⟨{ billboards := [], opaqueSprites := [], opaqueModels := [],
     depthSortedMeshes := [], depthSortedMeshData := [],
     depthSortedSprites := [], depthSortedSpriteData := [],
     otherDrawables := [], clearCount := 0 }⟩

/-- Embedding of the `ForwardRenderQueue` state: the six submission
buckets, the billboard vertex pool `m_billboards`, the active-layer set
`m_renderLayers` and the `layers` map (`std::map<int, Layer>`; modelled
as an association list — every observation made of it is per-key). -/
structure ForwardRenderQueue where
  basicSprites : List SpriteChain
  billboards : List BillboardChain
  depthSortedBillboards : List Billboard
  depthSortedModels : List Model
  depthSortedSprites : List SpriteChain
  models : List Model
  m_billboards : List BillboardData
  m_renderLayers : List Int
  layers : List (Int × Layer)
deriving DecidableEq, Repr

/-- The queue in its initial (empty) state. -/
def emptyQueue : ForwardRenderQueue :=
  { basicSprites := [], billboards := [], depthSortedBillboards := [],
    depthSortedModels := [], depthSortedSprites := [], models := [],
    m_billboards := [], m_renderLayers := [], layers := [] }

instance : Inhabited ForwardRenderQueue := ⟨emptyQueue⟩

/-- Modelled from the spec: `AbstractRenderQueue::RegisterLayer` and the
active-layer set `m_renderLayers` live in the base class (not among the
sources).  Per §4.1 "All ops register the layer into the layer set" and
§4.3 "by sorted layer value", the set is modelled as a duplicate-free
ascending list. -/
def registerLayerSet (s : List Int) (renderOrder : Int) : List Int :=
  if s.contains renderOrder then s
  else List.insertionSort (fun a b => a ≤ b) (s ++ [renderOrder])

/-- Embedding of `RegisterLayer(renderOrder)` as called by `AddMesh` and
`AddSprites` (note: the `AddBillboards` overloads never call it). -/
def RegisterLayer (q : ForwardRenderQueue) (renderOrder : Int) : ForwardRenderQueue :=
  { q with m_renderLayers := registerLayerSet q.m_renderLayers renderOrder }

/-- Embedding of `ForwardRenderQueue::GetLayer(i)`: looks the layer up in
the `layers` map, inserting a default-constructed one when absent, and
resets its `clearCount` to zero (source line 1055).  Returns the
(possibly fresh) layer together with the updated map. -/
def GetLayer (layers : List (Int × Layer)) (i : Int) : Layer × List (Int × Layer) :=
  match layers.lookup i with
  | some L =>
    let L' := { L with clearCount := 0 }
    (L', layers.map fun kl => if kl.1 = i then (i, L') else kl)
  | none =>
    let L' : Layer := default
    (L', layers ++ [(i, L')])

/-- Replace the entry of key `i` in the layers map (write-back of a
mutation made through the reference `GetLayer` returns). -/
def setLayer (layers : List (Int × Layer)) (i : Int) (L : Layer) : List (Int × Layer) :=
  layers.map fun kl => if kl.1 = i then (i, L) else kl

/-- The list of packed billboard instances a single `AddBillboards` call
computes: instance `i` reads the `i`-th element of each (possibly
zero-stride) stream, in the member order `{color, center, size, sinCos}`
of `BillboardData`. -/
def producedBillboards (count : Nat) (positions : Nat → Vector3f)
    (sizes : Nat → Vector2f) (sinCos : Nat → Vector2f) (colors : Nat → Color) :
    List BillboardData :=
  (List.range count).map fun i =>
    { color := colors i, center := positions i, size := sizes i, sinCos := sinCos i }

/-- Sequential pointer writes into the billboard pool: write the values
one after another starting at the signed index `start`.  A write whose
index falls outside the pool is an out-of-bounds pointer write (undefined
behaviour in the C++) and is modelled as failure (`none`). -/
def writeSeq (pool : List BillboardData) : Int → List BillboardData → Option (List BillboardData)
  | _, [] => some pool
  | start, v :: vs =>
    if 0 ≤ start ∧ start < (pool.length : Int) then
      writeSeq (pool.set start.toNat v) (start + 1) vs
    else
      none

/-- The opaque branch of every `AddBillboards` overload: record the pool
size as `billboardIndex`, grow the pool by `count` value-initialised
slots (`m_billboards.resize`), then copy the instances through the
pointer `&m_billboards.back() - billboardCount` — which addresses the
slot at signed index `billboardIndex - 1`, one *before* the recorded
offset — and insert one `BillboardChain` batch descriptor. -/
def addBillboardsOpaque (q : ForwardRenderQueue) (renderOrder : Int)
    (material : Material) (billboardCount : Nat) (scissorRect : Recti)
    (data : List BillboardData) : Option ForwardRenderQueue :=
  let billboardIndex := q.m_billboards.length
  let grown := q.m_billboards ++ List.replicate billboardCount default
  match writeSeq grown ((grown.length : Int) - 1 - (billboardCount : Int)) data with
  | none => none
  | some pool =>
    some { q with
      m_billboards := pool,
      billboards := q.billboards ++
        [{ layerIndex := renderOrder, material := material,
           scissorRect := scissorRect, billboardCount := billboardCount,
           billboardIndex := billboardIndex }] }

/-- The transparent branch of every `AddBillboards` overload: one
`Billboard` record per instance, in stream order. -/
def addBillboardsTransparent (q : ForwardRenderQueue) (renderOrder : Int)
    (material : Material) (scissorRect : Recti) (data : List BillboardData) :
    ForwardRenderQueue :=
  { q with depthSortedBillboards := q.depthSortedBillboards ++
      data.map fun d =>
        { layerIndex := renderOrder, material := material,
          scissorRect := scissorRect, data := d } }

/-- Instance data of the `AddBillboards(positions, sizes, sinCosPtr,
colorPtr)` overload (source lines 34-86): a null rotation stream is
replaced by the zero-stride constant `defaultSinCos = (0, 1)` and a null
colour stream by the zero-stride constant `Color::White`. -/
def billboardStreamsSC (count : Nat) (positionPtr : Nat → Vector3f)
    (sizePtr : Nat → Vector2f) (sinCosPtr : Option (Nat → Vector2f))
    (colorPtr : Option (Nat → Color)) : List BillboardData :=
  let sinCos := sinCosPtr.getD fun _ => ⟨0, 1⟩
  let colors := colorPtr.getD fun _ => Color.White
  producedBillboards count positionPtr sizePtr sinCos colors

/-- Embedding of `AddBillboards(renderOrder, material, count, scissor,
positionPtr, sizePtr, sinCosPtr, colorPtr)` (source lines 34-86).  Null
streams are the `none` cases; the material is a required (asserted
non-null) argument. -/
def AddBillboardsSC (q : ForwardRenderQueue) (renderOrder : Int)
    (material : Material) (billboardCount : Nat) (scissorRect : Recti)
    (positionPtr : Nat → Vector3f) (sizePtr : Nat → Vector2f)
    (sinCosPtr : Option (Nat → Vector2f)) (colorPtr : Option (Nat → Color)) :
    Option ForwardRenderQueue :=
  let data := billboardStreamsSC billboardCount positionPtr sizePtr sinCosPtr colorPtr
  if material.IsDepthSortingEnabled then
    some (addBillboardsTransparent q renderOrder material scissorRect data)
  else
    addBillboardsOpaque q renderOrder material billboardCount scissorRect data

/-- Instance data of the `AddBillboards(positions, sizes, sinCosPtr,
alphaPtr)` overload (source lines 102-156): a null rotation stream is
replaced by `(0, 1)`, a null alpha stream by the zero-stride constant
`1.f`; colours are produced through `ComputeColor`. -/
def billboardStreamsSA (count : Nat) (positionPtr : Nat → Vector3f)
    (sizePtr : Nat → Vector2f) (sinCosPtr : Option (Nat → Vector2f))
    (alphaPtr : Option (Nat → ℚ)) : List BillboardData :=
  let sinCos := sinCosPtr.getD fun _ => ⟨0, 1⟩
  let alphas := alphaPtr.getD fun _ => 1
  producedBillboards count positionPtr sizePtr sinCos fun i => ComputeColor (alphas i)

/-- Embedding of `AddBillboards(renderOrder, material, count, scissor,
positionPtr, sizePtr, sinCosPtr, alphaPtr)` (source lines 102-156). -/
def AddBillboardsSA (q : ForwardRenderQueue) (renderOrder : Int)
    (material : Material) (billboardCount : Nat) (scissorRect : Recti)
    (positionPtr : Nat → Vector3f) (sizePtr : Nat → Vector2f)
    (sinCosPtr : Option (Nat → Vector2f)) (alphaPtr : Option (Nat → ℚ)) :
    Option ForwardRenderQueue :=
  let data := billboardStreamsSA billboardCount positionPtr sizePtr sinCosPtr alphaPtr
  if material.IsDepthSortingEnabled then
    some (addBillboardsTransparent q renderOrder material scissorRect data)
  else
    addBillboardsOpaque q renderOrder material billboardCount scissorRect data

/-- Instance data of the `AddBillboards(positions, sizes, anglePtr,
alphaPtr)` overload (source lines 516-570): a null angle stream is
replaced by the zero-stride constant `0.f` and a null alpha stream by
`1.f`.  `computeSinCos` stands for the header helper `ComputeSinCos`
(modelled from the spec: it computes `(sin θ, cos θ)`; the trigonometric
kernel lives outside the sources and is kept as a parameter — the source
comment pins `sin(0) = 0, cos(0) = 1`). -/
def billboardStreamsAA (computeSinCos : ℚ → Vector2f) (count : Nat)
    (positionPtr : Nat → Vector3f) (sizePtr : Nat → Vector2f)
    (anglePtr : Option (Nat → ℚ)) (alphaPtr : Option (Nat → ℚ)) :
    List BillboardData :=
  let angles := anglePtr.getD fun _ => 0
  let alphas := alphaPtr.getD fun _ => 1
  producedBillboards count positionPtr sizePtr
    (fun i => computeSinCos (angles i)) (fun i => ComputeColor (alphas i))

/-- Embedding of `AddBillboards(renderOrder, material, count, scissor,
positionPtr, sizePtr, anglePtr, alphaPtr)` (source lines 516-570). -/
def AddBillboardsAA (computeSinCos : ℚ → Vector2f) (q : ForwardRenderQueue)
    (renderOrder : Int) (material : Material) (billboardCount : Nat)
    (scissorRect : Recti) (positionPtr : Nat → Vector3f)
    (sizePtr : Nat → Vector2f) (anglePtr : Option (Nat → ℚ))
    (alphaPtr : Option (Nat → ℚ)) : Option ForwardRenderQueue :=
  let data := billboardStreamsAA computeSinCos billboardCount positionPtr sizePtr anglePtr alphaPtr
  if material.IsDepthSortingEnabled then
    some (addBillboardsTransparent q renderOrder material scissorRect data)
  else
    addBillboardsOpaque q renderOrder material billboardCount scissorRect data

/-- Embedding of `ForwardRenderQueue::AddDrawable` (source lines
581-594), with `NAZARA_GRAPHICS_SAFE` compiled in: a null drawable raises
`NazaraError` (the returned flag) and returns with the queue untouched; a
valid drawable is appended to the layer's `otherDrawables`. -/
def AddDrawable (q : ForwardRenderQueue) (renderOrder : Int)
    (drawable : Option Nat) : ForwardRenderQueue × Bool :=
  match drawable with
  | none => (q, true)
  | some d =>
    let (L, layers') := GetLayer q.layers renderOrder
    let L' := { L with otherDrawables := L.otherDrawables ++ [d] }
    ({ q with layers := setLayer layers' renderOrder L' }, false)

/-- Embedding of `ForwardRenderQueue::AddMesh` (source lines 607-637):
registers the layer, builds the bounding sphere from the transformed AABB
centre and the AABB's squared radius, and dispatches on
`IsDepthSortingEnabled`. -/
def AddMesh (q : ForwardRenderQueue) (renderOrder : Int) (material : Material)
    (meshData : MeshData) (meshAABB : Boxf) (transformMatrix : Matrix4f)
    (scissorRect : Recti) : ForwardRenderQueue :=
  let q := RegisterLayer q renderOrder
  let obbSphere : Spheref :=
    { position := transformMatrix.GetTranslation + meshAABB.GetCenter,
      radius := meshAABB.GetSquaredRadius }
  let record : Model :=
    { layerIndex := renderOrder, meshData := meshData, material := material,
      transformMatrix := transformMatrix, scissorRect := scissorRect,
      obbSphere := obbSphere }
  if material.IsDepthSortingEnabled then
    { q with depthSortedModels := q.depthSortedModels ++ [record] }
  else
    { q with models := q.models ++ [record] }

/-- Embedding of `ForwardRenderQueue::AddSprites` (source lines 650-680):
touches the layer through `GetLayer` (resetting its `clearCount`),
registers the layer, and dispatches on `IsDepthSortingEnabled`. -/
def AddSprites (q : ForwardRenderQueue) (renderOrder : Int) (material : Material)
    (vertices : List VertexStruct) (spriteCount : Nat) (scissorRect : Recti)
    (overlay : Option Nat) : ForwardRenderQueue :=
  let (_, layers') := GetLayer q.layers renderOrder
  let q := { q with layers := layers' }
  let q := RegisterLayer q renderOrder
  let record : SpriteChain :=
    { layerIndex := renderOrder, spriteCount := spriteCount,
      material := material, overlay := overlay, vertices := vertices,
      scissorRect := scissorRect }
  if material.IsDepthSortingEnabled then
    { q with depthSortedSprites := q.depthSortedSprites ++ [record] }
  else
    { q with basicSprites := q.basicSprites ++ [record] }

/-- The soft-clear (`fully = false`) transformation applied to one
retained layer (source lines 711-786): empty the per-material billboard
vectors of enabled pipeline entries and drop their `enabled` flags, the
sprite chains and model instances likewise, empty the legacy depth-sorted
vectors and drawables, and post-increment `clearCount`. -/
def softClearLayer (L : Layer) : Layer :=
  { L with
    billboards := L.billboards.map fun pp =>
      (pp.1,
        { enabled := false,
          materialMap :=
            if pp.2.enabled then
              pp.2.materialMap.map fun mp => (mp.1, { billboards := [] })
            else
              pp.2.materialMap }),
    opaqueSprites := L.opaqueSprites.map fun pp =>
      (pp.1,
        if pp.2.enabled then
          { enabled := false,
            materialMap := pp.2.materialMap.map fun mp =>
              (mp.1,
                if mp.2.enabled then
                  { enabled := false,
                    overlayMap := mp.2.overlayMap.map fun op =>
                      (op.1, { spriteChains := [] }) }
                else
                  mp.2) }
        else
          pp.2),
    opaqueModels := L.opaqueModels.map fun pp =>
      (pp.1,
        if 0 < pp.2.maxInstanceCount then
          { maxInstanceCount := 0,
            materialMap := pp.2.materialMap.map fun mp =>
              (mp.1,
                if mp.2.enabled then
                  { enabled := false,
                    meshMap := mp.2.meshMap.map fun me =>
                      (me.1, { instances := [] }) }
                else
                  mp.2) }
        else
          pp.2),
    depthSortedMeshes := [],
    depthSortedMeshData := [],
    depthSortedSprites := [],
    depthSortedSpriteData := [],
    otherDrawables := [],
    clearCount := L.clearCount + 1 }

/-- Embedding of `ForwardRenderQueue::Clear(fully)` (source lines
688-790): all six buckets, the billboard pool and the active-layer set
are emptied unconditionally; the `layers` map is emptied on a full clear,
while a soft clear evaluates `layer.clearCount++ >= 100` per layer —
erasing the layer when its stored (pre-increment) count has reached 100,
i.e. exactly when the incremented count would exceed the threshold 100 —
and soft-clears the retained ones.  The base-class call
`AbstractRenderQueue::Clear(fully)` touches only the light arrays of the
base class (not among the sources) and is not modelled. -/
def clearQueue (q : ForwardRenderQueue) (fully : Bool) : ForwardRenderQueue :=
  { basicSprites := [], billboards := [], depthSortedBillboards := [],
    depthSortedModels := [], depthSortedSprites := [], models := [],
    m_billboards := [], m_renderLayers := [],
    layers :=
      if fully then []
      else
        q.layers.filterMap fun kl =>
          if 100 ≤ kl.2.clearCount then none
          else some (kl.1, softClearLayer kl.2) }

/-- Embedding of `ForwardRenderQueue::OnMaterialInvalidation` (source
lines 1174-1189): for every layer, erase the destroyed material's key
from the `materialMap` of the legacy `opaqueSprites`, `billboards` and
`opaqueModels` containers.  No other member is touched. -/
def OnMaterialInvalidation (q : ForwardRenderQueue) (material : Material) :
    ForwardRenderQueue :=
  { q with layers := q.layers.map fun kl =>
      (kl.1,
        { kl.2 with
          opaqueSprites := kl.2.opaqueSprites.map fun pp =>
            (pp.1, { pp.2 with
              materialMap := pp.2.materialMap.filter fun mp => decide (mp.1 ≠ material) }),
          billboards := kl.2.billboards.map fun pp =>
            (pp.1, { pp.2 with
              materialMap := pp.2.materialMap.filter fun mp => decide (mp.1 ≠ material) }),
          opaqueModels := kl.2.opaqueModels.map fun pp =>
            (pp.1, { pp.2 with
              materialMap := pp.2.materialMap.filter fun mp => decide (mp.1 ≠ material) }) }) }

/-- Embedding of `ForwardRenderQueue::OnTextureInvalidation` (source
lines 1197-1208): erase the destroyed texture's key from every overlay
map of the legacy opaque-sprite containers. -/
def OnTextureInvalidation (q : ForwardRenderQueue) (texture : Nat) :
    ForwardRenderQueue :=
  { q with layers := q.layers.map fun kl =>
      (kl.1,
        { kl.2 with
          opaqueSprites := kl.2.opaqueSprites.map fun pp =>
            (pp.1, { pp.2 with
              materialMap := pp.2.materialMap.map fun mp =>
                (mp.1, { mp.2 with
                  overlayMap := mp.2.overlayMap.filter fun op =>
                    decide (op.1 ≠ some texture) }) }) }) }

/-- Embedding of `ForwardRenderQueue::OnIndexBufferInvalidation` (source
lines 1144-1166): erase from the legacy opaque-model mesh maps every
`MeshData` whose index buffer is the destroyed one. -/
def OnIndexBufferInvalidation (q : ForwardRenderQueue) (indexBuffer : Nat) :
    ForwardRenderQueue :=
  { q with layers := q.layers.map fun kl =>
      (kl.1,
        { kl.2 with
          opaqueModels := kl.2.opaqueModels.map fun pp =>
            (pp.1, { pp.2 with
              materialMap := pp.2.materialMap.map fun mp =>
                (mp.1, { mp.2 with
                  meshMap := mp.2.meshMap.filter fun me =>
                    decide (me.1.indexBuffer ≠ some indexBuffer) }) }) }) }

/-- Embedding of `ForwardRenderQueue::OnVertexBufferInvalidation` (source
lines 1216-1237): erase from the legacy opaque-model mesh maps every
`MeshData` whose vertex buffer is the destroyed one. -/
def OnVertexBufferInvalidation (q : ForwardRenderQueue) (vertexBuffer : Nat) :
    ForwardRenderQueue :=
  { q with layers := q.layers.map fun kl =>
      (kl.1,
        { kl.2 with
          opaqueModels := kl.2.opaqueModels.map fun pp =>
            (pp.1, { pp.2 with
              materialMap := pp.2.materialMap.map fun mp =>
                (mp.1, { mp.2 with
                  meshMap := mp.2.meshMap.filter fun me =>
                    decide (me.1.vertexBuffer ≠ vertexBuffer) }) }) }) }

/-- One 64-bit unsigned operation result: `Nat` reduced modulo `2 ^ 64`
(C++ `Nz::UInt64` arithmetic wraps). -/
def u64 (n : Nat) : Nat := n % 2 ^ 64

/-- Embedding of the 64-bit identity sort key assembled for the opaque
buckets in `ForwardRenderQueue::Sort` (source lines 845-852, 887-894,
925-932): the masked indices are shifted into place and OR-ed together.
The secondary index is the overlay index for sprites, zero (`unknownIndex`)
for billboard chains, and the vertex-buffer index for models; the callers
pass `scissorIndex = 0` and `depthIndex = 0` (both TODO in the source). -/
def identityKey (layerIndex pipelineIndex materialIndex shaderIndex
    textureIndex secIndex scissorIndex depthIndex : Nat) : Nat :=
  u64 (u64 ((layerIndex &&& 0x0F) <<< 60) |||
       u64 ((pipelineIndex &&& 0xFF) <<< 52) |||
       u64 ((materialIndex &&& 0xFF) <<< 44) |||
       u64 ((shaderIndex &&& 0xFF) <<< 36) |||
       u64 ((textureIndex &&& 0xFF) <<< 28) |||
       u64 ((secIndex &&& 0xFF) <<< 20) |||
       u64 ((scissorIndex &&& 0x0F) <<< 16) |||
       u64 ((depthIndex &&& 0xFFFF) <<< 0))

/-- Embedding of the 64-bit depth sort key assembled for the transparent
buckets in `ForwardRenderQueue::Sort` (source lines 950-951, 970-971,
988-989, 1010-1011, 1028-1029): `depthBits` is the 32-bit pattern
obtained by `*reinterpret_cast<Nz::UInt32*>(&depth)`, and the key is
`(layerIndex & 0x0F) << 60 | (depthBits & 0xFFFFFFFF) << 52` in wrapping
64-bit arithmetic. -/
def depthKey (layerIndex depthBits : Nat) : Nat :=
  u64 (u64 ((layerIndex &&& 0x0F) <<< 60) |||
       u64 ((depthBits &&& 0xFFFFFFFF) <<< 52))

/-- Following the spec's words (§4.2), for comparison with `depthKey`:
the depth-key layout `[ layer:4 | invertedDepth:32 | reserved:28 ]` where
`invertedDepth` is the bitwise complement of the 32-bit depth pattern. -/
def specDepthKey (layerIndex depthBits : Nat) : Nat :=
  (layerIndex % 16) * 2 ^ 60 + (2 ^ 32 - 1 - depthBits % 2 ^ 32) * 2 ^ 28

/-- Embedding of the function-local `static` caches of
`ForwardRenderQueue::Sort` (source lines 800-817): the layer-index map
with its one-shot `once` flag, and the six identity tables.  Being
`static`, they persist across `Sort` calls (and across queue instances);
the embedding threads them explicitly. -/
structure SortCaches where
  layers : List (Int × Nat)
  once : Bool
  pipelines : List (Nat × Nat)
  materials : List (Material × Nat)
  overlays : List (Option Nat × Nat)
  shaders : List (Nat × Nat)
  textures : List (Option Nat × Nat)
  vertexBuffers : List (Nat × Nat)
deriving DecidableEq, Repr

/-- The caches in their initial (program start-up) state: all empty,
`once = false`. -/
def initialCaches : SortCaches :=
  { layers := [], once := false, pipelines := [], materials := [],
    overlays := [], shaders := [], textures := [], vertexBuffers := [] }

/-- Embedding of the `GetOrInsert` lambda of `ForwardRenderQueue::Sort`
(source lines 831-834): `container.emplace(value, container.size())`
returns the existing index or assigns the next one. -/
def getOrInsert {κ : Type} [DecidableEq κ] (m : List (κ × Nat)) (k : κ) :
    Nat × List (κ × Nat) :=
  match m.find? (fun p => decide (p.1 = k)) with
  | some p => (p.2, m)
  | none => (m.length, m ++ [(k, m.length)])

/-- Embedding of `std::unordered_map::operator[]` as used for
`layers[...]` inside the key lambdas: a missing key is inserted with a
value-initialised mapped value, i.e. index `0`. -/
def bracketIdx (m : List (Int × Nat)) (k : Int) : Nat × List (Int × Nat) :=
  match m.find? (fun p => decide (p.1 = k)) with
  | some p => (p.2, m)
  | none => (0, m ++ [(k, 0)])

/-- Embedding of `emplace(layer, layers.size())` from the `once` block of
`ForwardRenderQueue::Sort` (source lines 803-809). -/
def emplaceIdx (m : List (Int × Nat)) (k : Int) : List (Int × Nat) :=
  match m.find? (fun p => decide (p.1 = k)) with
  | some _ => m
  | none => m ++ [(k, m.length)]

/-- Identity-key computation for one `basicSprites` record (source lines
819-855), threading the static caches in the source's evaluation order. -/
def spriteKeyStep (c : SortCaches) (vertices : SpriteChain) : Nat × SortCaches :=
  let (layerIndex, ls) := bracketIdx c.layers vertices.layerIndex
  let (pipelineIndex, ps) := getOrInsert c.pipelines vertices.material.GetPipeline
  let (materialIndex, mats) := getOrInsert c.materials vertices.material
  let (shaderIndex, shs) := getOrInsert c.shaders vertices.material.GetShader
  let (textureIndex, txs) := getOrInsert c.textures vertices.material.GetDiffuseMap
  let (overlayIndex, ovs) := getOrInsert c.overlays vertices.overlay
  let c' := { c with
    layers := ls, pipelines := ps, materials := mats,
    shaders := shs, textures := txs, overlays := ovs }
  (identityKey layerIndex pipelineIndex materialIndex shaderIndex textureIndex
     overlayIndex 0 0, c')

/-- Identity-key computation for one `billboards` record (source lines
857-897); the secondary field is the unused `unknownIndex = 0`. -/
def billboardChainKeyStep (c : SortCaches) (billboard : BillboardChain) :
    Nat × SortCaches :=
  let (layerIndex, ls) := bracketIdx c.layers billboard.layerIndex
  let (pipelineIndex, ps) := getOrInsert c.pipelines billboard.material.GetPipeline
  let (materialIndex, mats) := getOrInsert c.materials billboard.material
  let (shaderIndex, shs) := getOrInsert c.shaders billboard.material.GetShader
  let (textureIndex, txs) := getOrInsert c.textures billboard.material.GetDiffuseMap
  let c' := { c with
    layers := ls, pipelines := ps, materials := mats,
    shaders := shs, textures := txs }
  (identityKey layerIndex pipelineIndex materialIndex shaderIndex textureIndex
     0 0 0, c')

/-- Identity-key computation for one `models` record (source lines
899-934); the secondary field is the vertex-buffer index. -/
def modelKeyStep (c : SortCaches) (renderData : Model) : Nat × SortCaches :=
  let (layerIndex, ls) := bracketIdx c.layers renderData.layerIndex
  let (pipelineIndex, ps) := getOrInsert c.pipelines renderData.material.GetPipeline
  let (materialIndex, mats) := getOrInsert c.materials renderData.material
  let (shaderIndex, shs) := getOrInsert c.shaders renderData.material.GetShader
  let (textureIndex, txs) := getOrInsert c.textures renderData.material.GetDiffuseMap
  let (bufferIndex, vbs) := getOrInsert c.vertexBuffers renderData.meshData.vertexBuffer
  let c' := { c with
    layers := ls, pipelines := ps, materials := mats,
    shaders := shs, textures := txs, vertexBuffers := vbs }
  (identityKey layerIndex pipelineIndex materialIndex shaderIndex textureIndex
     bufferIndex 0 0, c')

/-- Depth-key computation for one `depthSortedBillboards` record (source
lines 938-954): the depth is the near-plane distance of the billboard
centre; `bitsOf` stands for the IEEE-754 binary32 reinterpretation of the
float depth (bit-level float layout is outside the rational-valued
embedding and is kept as a parameter). -/
def depthBillboardKeyStep (bitsOf : ℚ → Nat) (nearPlane : Planef)
    (c : SortCaches) (billboard : Billboard) : Nat × SortCaches :=
  let depth := nearPlane.Distance billboard.data.center
  let (layerIndex, ls) := bracketIdx c.layers billboard.layerIndex
  (depthKey layerIndex (bitsOf depth), { c with layers := ls })

/-- Depth-key computation for one `depthSortedModels` record under an
orthographic projection (source lines 958-974): plane distance of the
bounding-sphere centre. -/
def depthModelKeyStepOrtho (bitsOf : ℚ → Nat) (nearPlane : Planef)
    (c : SortCaches) (model : Model) : Nat × SortCaches :=
  let depth := nearPlane.Distance model.obbSphere.GetPosition
  let (layerIndex, ls) := bracketIdx c.layers model.layerIndex
  (depthKey layerIndex (bitsOf depth), { c with layers := ls })

/-- Depth-key computation for one `depthSortedSprites` record under an
orthographic projection (source lines 976-992): plane distance of the
first vertex position. -/
def depthSpriteKeyStepOrtho (bitsOf : ℚ → Nat) (nearPlane : Planef)
    (c : SortCaches) (spriteChain : SpriteChain) : Nat × SortCaches :=
  let depth := nearPlane.Distance (spriteChain.vertices.getD 0 default).position
  let (layerIndex, ls) := bracketIdx c.layers spriteChain.layerIndex
  (depthKey layerIndex (bitsOf depth), { c with layers := ls })

/-- Depth-key computation for one `depthSortedModels` record under a
perspective projection (source lines 998-1014): squared distance from the
eye to the bounding-sphere centre. -/
def depthModelKeyStepPersp (bitsOf : ℚ → Nat) (viewerPos : Vector3f)
    (c : SortCaches) (model : Model) : Nat × SortCaches :=
  let depth := viewerPos.SquaredDistance model.obbSphere.GetPosition
  let (layerIndex, ls) := bracketIdx c.layers model.layerIndex
  (depthKey layerIndex (bitsOf depth), { c with layers := ls })

/-- Depth-key computation for one `depthSortedSprites` record under a
perspective projection (source lines 1016-1032): squared distance from
the eye to the first vertex position. -/
def depthSpriteKeyStepPersp (bitsOf : ℚ → Nat) (viewerPos : Vector3f)
    (c : SortCaches) (sprites : SpriteChain) : Nat × SortCaches :=
  let depth := viewerPos.SquaredDistance (sprites.vertices.getD 0 default).position
  let (layerIndex, ls) := bracketIdx c.layers sprites.layerIndex
  (depthKey layerIndex (bitsOf depth), { c with layers := ls })

/-- Compute the sort key of every record of a bucket in submission order,
threading the static caches through the key function's side effects. -/
def threadKeys {α : Type} (step : SortCaches → α → Nat × SortCaches) :
    SortCaches → List α → List (Nat × α) × SortCaches
  | c, [] => ([], c)
  | c, x :: xs =>
    let (k, c') := step c x
    let (rest, c'') := threadKeys step c' xs
    ((k, x) :: rest, c'')

/-- Stable ascending sort of keyed records by their `Nat` key
(insertion sort: a record is placed after every earlier record whose key
is less than or equal to its own). -/
def stableSortByKey {α : Type} (keyed : List (Nat × α)) : List (Nat × α) :=
  List.insertionSort (fun a b => a.1 ≤ b.1) keyed

/-- Modelled from the spec: `RenderQueue<T>::Sort(keyFunction)` (the
internal bucket container is declared in headers that are not among the
sources).  Per §4.3 step 2 of the spec it computes the sort key of every
record and stable-sorts the bucket ascending by key. -/
def bucketSort {α : Type} (step : SortCaches → α → Nat × SortCaches)
    (c : SortCaches) (l : List α) : List α × SortCaches :=
  let (keyed, c') := threadKeys step c l
  ((stableSortByKey keyed).map (fun p => p.2), c')

/-- Embedding of the projection kinds of `GetProjectionType`. -/
inductive ProjectionType
  | Orthogonal
  | Perspective
deriving DecidableEq, Repr

/-- Modelled from the spec: the viewer interface consumed by `Sort` (§6):
the near frustum plane (`GetFrustum().GetPlane(FrustumPlane_Near)`), the
eye position and the projection type. -/
structure AbstractViewer where
  nearPlane : Planef
  eyePosition : Vector3f
  projectionType : ProjectionType
deriving DecidableEq, Repr

/-- Embedding of the comparator of the `std::sort` call on
`layer.depthSortedMeshes` in `SortForOrthographic` (source lines
1090-1096): index `i1` precedes `i2` when its sphere centre is *nearer*
to the near plane (ascending plane distance). -/
def orthoMeshCmp (nearPlane : Planef) (data : List DSMeshData)
    (index1 index2 : Nat) : Bool :=
  decide (nearPlane.Distance (data.getD index1 default).obbSphere.GetPosition <
          nearPlane.Distance (data.getD index2 default).obbSphere.GetPosition)

/-- Embedding of the comparator of the `std::sort` call on
`layer.depthSortedSprites` in `SortForOrthographic` (source lines
1098-1104): ascending plane distance of the first vertex position. -/
def orthoSpriteCmp (nearPlane : Planef) (data : List DSSpriteData)
    (index1 index2 : Nat) : Bool :=
  decide (nearPlane.Distance ((data.getD index1 default).vertices.getD 0 default).position <
          nearPlane.Distance ((data.getD index2 default).vertices.getD 0 default).position)

/-- Embedding of the comparator of the `std::sort` call on
`layer.depthSortedMeshes` in `SortForPerspective` (source lines
1119-1125): descending squared distance from the eye. -/
def perspMeshCmp (viewerPos : Vector3f) (data : List DSMeshData)
    (index1 index2 : Nat) : Bool :=
  decide (viewerPos.SquaredDistance (data.getD index1 default).obbSphere.GetPosition >
          viewerPos.SquaredDistance (data.getD index2 default).obbSphere.GetPosition)

/-- Embedding of the comparator of the `std::sort` call on
`layer.depthSortedSprites` in `SortForPerspective` (source lines
1127-1133): descending squared distance from the eye. -/
def perspSpriteCmp (viewerPos : Vector3f) (data : List DSSpriteData)
    (index1 index2 : Nat) : Bool :=
  decide (viewerPos.SquaredDistance ((data.getD index1 default).vertices.getD 0 default).position >
          viewerPos.SquaredDistance ((data.getD index2 default).vertices.getD 0 default).position)

/-- Embedding of the comparator of the `std::sort` call in
`SortBillboards` (source lines 1073-1076): descending near-plane distance
of the billboard centres, under both projection types. -/
def billboardDataCmp (nearPlane : Planef) (data1 data2 : BillboardData) : Bool :=
  decide (nearPlane.Distance data1.center > nearPlane.Distance data2.center)

/-- Permitted results of a `std::sort` call with comparator `cmp`: the
C++ standard guarantees only that the output is a permutation of the
input that is sorted with respect to `cmp` (no element strictly precedes,
under `cmp`, an element placed before it); the order of
comparator-equivalent elements is unspecified. -/
def StdSortPermitted {α : Type} (cmp : α → α → Bool) (input output : List α) : Prop :=
  input.Perm output ∧ output.Pairwise fun a b => cmp b a = false

/-- Deterministic refinement used to run the `std::sort` calls of the
per-layer sorting functions: a stable sort under the reflexive closure of
the strict comparator.  Every run of it satisfies `StdSortPermitted`; on
inputs where the comparator is decisive between every pair the permitted
output is unique, so evaluating this refinement evaluates the code. -/
def stdSortModel {α : Type} (cmp : α → α → Bool) (l : List α) : List α :=
  List.insertionSort (fun a b => cmp b a = false) l

/-- Embedding of `ForwardRenderQueue::SortBillboards(layer, nearPlane)`
(source lines 1060-1080): for every pipeline entry and every material
with depth sorting enabled, sort that material's billboard vector
back-to-front by near-plane distance. -/
def SortBillboards (nearPlane : Planef)
    (bbs : List (Nat × BillboardPipelineEntry)) :
    List (Nat × BillboardPipelineEntry) :=
  bbs.map fun pp =>
    (pp.1,
      { pp.2 with
        materialMap := pp.2.materialMap.map fun mp =>
          if mp.1.IsDepthSortingEnabled then
            (mp.1, { billboards := stdSortModel (billboardDataCmp nearPlane) mp.2.billboards })
          else
            mp })

/-- Per-layer body of `SortForOrthographic` (source lines 1086-1107). -/
def sortLayerForOrthographic (nearPlane : Planef) (layer : Layer) : Layer :=
  { layer with
    depthSortedMeshes :=
      stdSortModel (orthoMeshCmp nearPlane layer.depthSortedMeshData)
        layer.depthSortedMeshes,
    depthSortedSprites :=
      stdSortModel (orthoSpriteCmp nearPlane layer.depthSortedSpriteData)
        layer.depthSortedSprites,
    billboards := SortBillboards nearPlane layer.billboards }

/-- Embedding of `ForwardRenderQueue::SortForOrthographic(viewer)`
(source lines 1082-1108). -/
def SortForOrthographic (viewer : AbstractViewer) (q : ForwardRenderQueue) :
    ForwardRenderQueue :=
  { q with layers := q.layers.map fun kl =>
      (kl.1, sortLayerForOrthographic viewer.nearPlane kl.2) }

/-- Per-layer body of `SortForPerspective` (source lines 1115-1136); the
mesh and sprite sorts use eye distance while `SortBillboards` keeps using
the near plane. -/
def sortLayerForPerspective (nearPlane : Planef) (viewerPos : Vector3f)
    (layer : Layer) : Layer :=
  { layer with
    depthSortedMeshes :=
      stdSortModel (perspMeshCmp viewerPos layer.depthSortedMeshData)
        layer.depthSortedMeshes,
    depthSortedSprites :=
      stdSortModel (perspSpriteCmp viewerPos layer.depthSortedSpriteData)
        layer.depthSortedSprites,
    billboards := SortBillboards nearPlane layer.billboards }

/-- Embedding of `ForwardRenderQueue::SortForPerspective(viewer)` (source
lines 1110-1137). -/
def SortForPerspective (viewer : AbstractViewer) (q : ForwardRenderQueue) :
    ForwardRenderQueue :=
  { q with layers := q.layers.map fun kl =>
      (kl.1, sortLayerForPerspective viewer.nearPlane viewer.eyePosition kl.2) }

/-- Embedding of `ForwardRenderQueue::Sort(viewer)` (source lines
798-1039).  The function-local `static` caches arrive and leave as the
explicit `SortCaches` value: the layer-index map is filled from
`m_renderLayers` only on the very first call (the `once` flag), the six
identity tables are updated by the key lambdas in bucket order, each
bucket is sorted by its computed 64-bit key, and finally the per-layer
`std::sort` pass runs according to the projection type. -/
def sortQueue (bitsOf : ℚ → Nat) (viewer : AbstractViewer)
    (q : ForwardRenderQueue) (c : SortCaches) :
    ForwardRenderQueue × SortCaches :=
  let c :=
    if c.once then c
    else
      let ls := q.m_renderLayers.foldl emplaceIdx c.layers
      { c with layers := ls, once := true }
  let (bs, c) := bucketSort spriteKeyStep c q.basicSprites
  let (bbs, c) := bucketSort billboardChainKeyStep c q.billboards
  let (ms, c) := bucketSort modelKeyStep c q.models
  let nearPlane := viewer.nearPlane
  let (dsb, c) := bucketSort (depthBillboardKeyStep bitsOf nearPlane) c q.depthSortedBillboards
  let (dsm, dss, c) :=
    if viewer.projectionType = ProjectionType.Orthogonal then
      let (dsm, c) := bucketSort (depthModelKeyStepOrtho bitsOf nearPlane) c q.depthSortedModels
      let (dss, c) := bucketSort (depthSpriteKeyStepOrtho bitsOf nearPlane) c q.depthSortedSprites
      (dsm, dss, c)
    else
      let viewerPos := viewer.eyePosition
      let (dsm, c) := bucketSort (depthModelKeyStepPersp bitsOf viewerPos) c q.depthSortedModels
      let (dss, c) := bucketSort (depthSpriteKeyStepPersp bitsOf viewerPos) c q.depthSortedSprites
      (dsm, dss, c)
  let q := { q with
    basicSprites := bs, billboards := bbs, models := ms,
    depthSortedBillboards := dsb, depthSortedModels := dsm,
    depthSortedSprites := dss }
  let q :=
    if viewer.projectionType = ProjectionType.Orthogonal then
      SortForOrthographic viewer q
    else
      SortForPerspective viewer q
  (q, c)

/-- Clear acting on the combined queue and static-caches state: the
body of `Clear` (source lines 688-790) never references the
function-local static caches of `Sort`, so they pass through unchanged. -/
def clearSystem (s : ForwardRenderQueue × SortCaches) (fully : Bool) :
    ForwardRenderQueue × SortCaches :=
  (clearQueue s.1 fully, s.2)

/-- Orthographic viewer of spec scenario S4: near plane through the
origin with normal `+z`. -/
def C1viewer : AbstractViewer :=
  { nearPlane := { normal := ⟨0, 0, 1⟩, distance := 0 },
    eyePosition := ⟨0, 0, 0⟩, projectionType := ProjectionType.Orthogonal }

/-- Two transparent sprites at `z = 1` and `z = 2` (submission order:
`z = 1` first), as legacy per-layer depth-sorted sprite data. -/
def C1spriteData : List DSSpriteData :=
  [{ vertices := [{ position := ⟨0, 0, 1⟩ }] },
   { vertices := [{ position := ⟨0, 0, 2⟩ }] }]

/-- A layer holding the two transparent sprites of `C1spriteData` in
submission order. -/
def C1layer : Layer :=
  { (default : Layer) with
    depthSortedSprites := [0, 1], depthSortedSpriteData := C1spriteData }

/-- A queue with the single layer `C1layer`. -/
def C1queue : ForwardRenderQueue := { emptyQueue with layers := [(0, C1layer)] }

/-- Perspective viewer used for the two-frame layer-index scenario. -/
def C3viewer : AbstractViewer :=
  { nearPlane := { normal := ⟨0, 0, 1⟩, distance := 0 },
    eyePosition := ⟨0, 0, 0⟩, projectionType := ProjectionType.Perspective }

/-- An opaque material submitted in the first frame (and again in the
second). -/
def C3matA : Material :=
  { id := 0, depthSortingEnabled := false, pipeline := 0, shader := 0,
    diffuseMap := none }

/-- A distinct opaque material first submitted in the second frame. -/
def C3matB : Material :=
  { id := 1, depthSortingEnabled := false, pipeline := 1, shader := 1,
    diffuseMap := some 1 }

/-- Mesh data shared by the scenario's submissions. -/
def C3meshData : MeshData :=
  { vertexBuffer := 0, indexBuffer := none, primitiveMode := 0 }

/-- AABB shared by the scenario's submissions. -/
def C3aabb : Boxf := { center := ⟨0, 0, 0⟩, squaredRadius := 1 }

/-- Transform shared by the scenario's submissions. -/
def C3transform : Matrix4f := { translation := ⟨0, 0, 0⟩ }

/-- Frame 1: one opaque model on layer 10. -/
def C3frame1 : ForwardRenderQueue :=
  AddMesh emptyQueue 10 C3matA C3meshData C3aabb C3transform default

/-- First `Sort` call: seeds the static layer-index map (the `once`
block) with layer 10 only. -/
def C3afterSort1 : ForwardRenderQueue × SortCaches :=
  sortQueue (fun _ => 0) C3viewer C3frame1 initialCaches

/-- Frame 2 after a soft clear: an opaque model on layer 10 (submitted
first), then one on the new layer 5. -/
def C3frame2 : ForwardRenderQueue :=
  AddMesh
    (AddMesh (clearQueue C3afterSort1.1 false) 10 C3matA C3meshData C3aabb
      C3transform default)
    5 C3matB C3meshData C3aabb C3transform default

/-- Second `Sort` call, with the static caches left by the first. -/
def C3afterSort2 : ForwardRenderQueue × SortCaches :=
  sortQueue (fun _ => 0) C3viewer C3frame2 C3afterSort1.2

/-- The material destroyed in the invalidation scenario. -/
def C4mat : Material :=
  { id := 7, depthSortingEnabled := false, pipeline := 2, shader := 3,
    diffuseMap := some 4 }

/-- A layer whose legacy billboard container references `C4mat` (the
container the handler walks). -/
def C4legacyLayer : Layer :=
  { (default : Layer) with
    billboards :=
      [(2, { enabled := true,
             materialMap := [(C4mat, { billboards := [default] })] })] }

/-- A queue holding one opaque-model bucket record referencing `C4mat`
plus the legacy layer `C4legacyLayer`. -/
def C4queue : ForwardRenderQueue :=
  let q := AddMesh emptyQueue 0 C4mat
    { vertexBuffer := 1, indexBuffer := some 2, primitiveMode := 0 }
    { center := ⟨0, 0, 0⟩, squaredRadius := 1 } { translation := ⟨0, 0, 0⟩ }
    default
  { q with layers := [(0, C4legacyLayer)] }

/-- An opaque (non-depth-sorted) material for the billboard pool
scenario. -/
def C6mat : Material :=
  { id := 3, depthSortingEnabled := false, pipeline := 0, shader := 0,
    diffuseMap := none }

/-- A pre-existing pool entry (the result of an earlier batch). -/
def C6seed : BillboardData :=
  { color := ⟨1, 0, 0, 1⟩, center := ⟨9, 9, 9⟩, size := ⟨2, 2⟩,
    sinCos := ⟨0, 1⟩ }

/-- A queue whose billboard pool already holds `C6seed`. -/
def C6queue : ForwardRenderQueue := { emptyQueue with m_billboards := [C6seed] }

/-- Position stream of the two submitted instances. -/
def C6positions : Nat → Vector3f := fun i => ⟨(i : ℚ), 0, 0⟩

/-- Size stream of the two submitted instances. -/
def C6sizes : Nat → Vector2f := fun _ => ⟨1, 1⟩

/-- The first submitted instance, as packed by the call. -/
def C6instA : BillboardData :=
  { color := Color.White, center := ⟨0, 0, 0⟩, size := ⟨1, 1⟩, sinCos := ⟨0, 1⟩ }

/-- The second submitted instance, as packed by the call. -/
def C6instB : BillboardData :=
  { color := Color.White, center := ⟨1, 0, 0⟩, size := ⟨1, 1⟩, sinCos := ⟨0, 1⟩ }

/-- The `AddBillboards` call of the pool scenario: two opaque instances
into a pool already holding one entry. -/
def C6result : Option ForwardRenderQueue :=
  AddBillboardsSC C6queue 0 C6mat 2 default C6positions C6sizes none none

/-- Eye position of the stability scenario. -/
def C7eye : Vector3f := ⟨0, 0, -1⟩

/-- Two distinct depth-sorted meshes with identical sphere centres, in
submission order — their depth comparator values are equal. -/
def C7data : List DSMeshData :=
  [{ obbSphere := { position := ⟨0, 0, 3⟩, radius := 1 } },
   { obbSphere := { position := ⟨0, 0, 3⟩, radius := 2 } }]

/-- Position stream for the stream-default witnesses. -/
def C8positions : Nat → Vector3f := fun _ => ⟨0, 0, 0⟩

/-- Size stream for the stream-default witnesses. -/
def C8sizes : Nat → Vector2f := fun _ => ⟨1, 1⟩

/-- The packed instance produced from fully-defaulted streams. -/
def C8bd : BillboardData :=
  { color := Color.White, center := ⟨0, 0, 0⟩, size := ⟨1, 1⟩, sinCos := ⟨0, 1⟩ }

/-- A concrete trigonometric kernel (truncated series) satisfying
`C8trig 0 = (0, 1)`. -/
def C8trig : ℚ → Vector2f := fun θ => ⟨θ - θ ^ 3 / 6, 1 - θ ^ 2 / 2⟩

/-- A layer that has seen 3 soft clears. -/
def C9hot : Layer := { (default : Layer) with clearCount := 3 }

/-- A layer whose retention counter has reached the threshold. -/
def C9cold : Layer := { (default : Layer) with clearCount := 100 }

/-- A queue with one hot and one cold layer and a non-empty pool. -/
def C9queue : ForwardRenderQueue :=
  { emptyQueue with
    layers := [(1, C9hot), (2, C9cold)], m_billboards := [default] }

/-- Splitting lemma for OR-ing a value into the zeroed low bits of a
shifted field: when `a` fits below the shift, the bitwise OR is exact
addition. -/
theorem lor_split (x a k : Nat) (ha : a < 2 ^ k) :
    (x <<< k) ||| a = x * 2 ^ k + a := by
  have hmod : ((x <<< k) ||| a) % 2 ^ k = a := by
    apply Nat.eq_of_testBit_eq
    intro i
    rcases Nat.lt_or_ge i k with h | h
    · have hk : ¬ k ≤ i := by omega
      simp [Nat.testBit_mod_two_pow, h, Nat.testBit_shiftLeft, hk]
    · have h2 : a < 2 ^ i :=
        lt_of_lt_of_le ha (Nat.pow_le_pow_right (by norm_num) h)
      have hk : ¬ i < k := by omega
      simp [Nat.testBit_mod_two_pow, hk, Nat.testBit_lt_two_pow h2]
  have hdiv : ((x <<< k) ||| a) / 2 ^ k = x := by
    rw [← Nat.shiftRight_eq_div_pow]
    apply Nat.eq_of_testBit_eq
    intro i
    have h2 : a < 2 ^ (k + i) :=
      lt_of_lt_of_le ha (Nat.pow_le_pow_right (by norm_num) (Nat.le_add_right _ _))
    simp [Nat.testBit_shiftRight, Nat.testBit_shiftLeft,
          Nat.testBit_lt_two_pow h2, Nat.le_add_right]
  have hsum := Nat.div_add_mod ((x <<< k) ||| a) (2 ^ k)
  rw [hdiv, hmod] at hsum
  rw [← hsum, Nat.mul_comm]

/-- Mask 15 (`0x0F`) keeps the low 4 bits. -/
theorem and_mask_4 (v : Nat) : v &&& 15 = v % 2 ^ 4 := by
  have e : (15 : Nat) = 2 ^ 4 - 1 := by norm_num
  rw [e, Nat.and_pow_two_sub_one_eq_mod]

/-- Mask 255 (`0xFF`) keeps the low 8 bits. -/
theorem and_mask_8 (v : Nat) : v &&& 255 = v % 2 ^ 8 := by
  have e : (255 : Nat) = 2 ^ 8 - 1 := by norm_num
  rw [e, Nat.and_pow_two_sub_one_eq_mod]

/-- Mask 65535 (`0xFFFF`) keeps the low 16 bits. -/
theorem and_mask_16 (v : Nat) : v &&& 65535 = v % 2 ^ 16 := by
  have e : (65535 : Nat) = 2 ^ 16 - 1 := by norm_num
  rw [e, Nat.and_pow_two_sub_one_eq_mod]

/-- Mask 4294967295 (`0xFFFFFFFF`) keeps the low 32 bits. -/
theorem and_mask_32 (v : Nat) : v &&& 4294967295 = v % 2 ^ 32 := by
  have e : (4294967295 : Nat) = 2 ^ 32 - 1 := by norm_num
  rw [e, Nat.and_pow_two_sub_one_eq_mod]

/-- A field of `m` bits shifted above `k` bits of payload stays below
`2 ^ (m + k)`. -/
theorem field_sum_lt (hi lo m k j : Nat) (hhi : hi < 2 ^ m) (hlo : lo < 2 ^ k)
    (hj : j = m + k) : hi * 2 ^ k + lo < 2 ^ j := by
  subst hj
  calc hi * 2 ^ k + lo < hi * 2 ^ k + 2 ^ k := by omega
    _ = (hi + 1) * 2 ^ k := by ring
    _ ≤ 2 ^ m * 2 ^ k := Nat.mul_le_mul_right _ (by omega)
    _ = 2 ^ (m + k) := (Nat.pow_add 2 m k).symm

/-- A masked field shifted into place stays below any power covering it. -/
theorem shift_field_lt (v m s j : Nat) (hj : m + s ≤ j) :
    (v % 2 ^ m) <<< s < 2 ^ j := by
  rw [Nat.shiftLeft_eq]
  have h : (v % 2 ^ m) * 2 ^ s + 0 < 2 ^ (m + s) :=
    field_sum_lt _ _ _ _ _ (Nat.mod_lt _ (Nat.two_pow_pos _)) (Nat.two_pow_pos _) rfl
  have h2 : (2 : Nat) ^ (m + s) ≤ 2 ^ j := Nat.pow_le_pow_right (by norm_num) hj
  omega

/-- The identity key is exactly the base-2 positional value of its eight
fields: the OR-ed shifted masks assemble the 64-bit layout
`[ layer:4 | pipeline:8 | material:8 | shader:8 | texture:8 | sec:8 |
scissor:4 | depth:16 ]` with no overlap and no wrap-around. -/
theorem identityKey_eq (l p m s t sec sc d : Nat) :
    identityKey l p m s t sec sc d =
      (l % 2 ^ 4) * 2 ^ 60 + (p % 2 ^ 8) * 2 ^ 52 + (m % 2 ^ 8) * 2 ^ 44 +
      (s % 2 ^ 8) * 2 ^ 36 + (t % 2 ^ 8) * 2 ^ 28 + (sec % 2 ^ 8) * 2 ^ 20 +
      (sc % 2 ^ 4) * 2 ^ 16 + d % 2 ^ 16 := by
  unfold identityKey u64
  rw [and_mask_4 l, and_mask_8 p, and_mask_8 m, and_mask_8 s, and_mask_8 t,
      and_mask_8 sec, and_mask_4 sc, and_mask_16 d]
  rw [Nat.mod_eq_of_lt (shift_field_lt l 4 60 64 (by norm_num)),
      Nat.mod_eq_of_lt (shift_field_lt p 8 52 64 (by norm_num)),
      Nat.mod_eq_of_lt (shift_field_lt m 8 44 64 (by norm_num)),
      Nat.mod_eq_of_lt (shift_field_lt s 8 36 64 (by norm_num)),
      Nat.mod_eq_of_lt (shift_field_lt t 8 28 64 (by norm_num)),
      Nat.mod_eq_of_lt (shift_field_lt sec 8 20 64 (by norm_num)),
      Nat.mod_eq_of_lt (shift_field_lt sc 4 16 64 (by norm_num)),
      Nat.mod_eq_of_lt (shift_field_lt d 16 0 64 (by norm_num))]
  rw [Nat.shiftLeft_zero]
  simp only [Nat.lor_assoc]
  have h1 : ((sc % 2 ^ 4) <<< 16) ||| (d % 2 ^ 16) =
      (sc % 2 ^ 4) * 2 ^ 16 + d % 2 ^ 16 :=
    lor_split _ _ _ (Nat.mod_lt _ (Nat.two_pow_pos _))
  have b1 : (sc % 2 ^ 4) * 2 ^ 16 + d % 2 ^ 16 < 2 ^ 20 :=
    field_sum_lt _ _ _ _ _ (Nat.mod_lt _ (Nat.two_pow_pos _))
      (Nat.mod_lt _ (Nat.two_pow_pos _)) (by norm_num)
  have h2 : ((sec % 2 ^ 8) <<< 20) ||| ((sc % 2 ^ 4) * 2 ^ 16 + d % 2 ^ 16) =
      (sec % 2 ^ 8) * 2 ^ 20 + ((sc % 2 ^ 4) * 2 ^ 16 + d % 2 ^ 16) :=
    lor_split _ _ _ b1
  have b2 : (sec % 2 ^ 8) * 2 ^ 20 + ((sc % 2 ^ 4) * 2 ^ 16 + d % 2 ^ 16) < 2 ^ 28 :=
    field_sum_lt _ _ _ _ _ (Nat.mod_lt _ (Nat.two_pow_pos _)) b1 (by norm_num)
  have h3 : ((t % 2 ^ 8) <<< 28) |||
        ((sec % 2 ^ 8) * 2 ^ 20 + ((sc % 2 ^ 4) * 2 ^ 16 + d % 2 ^ 16)) =
      (t % 2 ^ 8) * 2 ^ 28 +
        ((sec % 2 ^ 8) * 2 ^ 20 + ((sc % 2 ^ 4) * 2 ^ 16 + d % 2 ^ 16)) :=
    lor_split _ _ _ b2
  have b3 : (t % 2 ^ 8) * 2 ^ 28 +
        ((sec % 2 ^ 8) * 2 ^ 20 + ((sc % 2 ^ 4) * 2 ^ 16 + d % 2 ^ 16)) < 2 ^ 36 :=
    field_sum_lt _ _ _ _ _ (Nat.mod_lt _ (Nat.two_pow_pos _)) b2 (by norm_num)
  have h4 : ((s % 2 ^ 8) <<< 36) |||
        ((t % 2 ^ 8) * 2 ^ 28 +
          ((sec % 2 ^ 8) * 2 ^ 20 + ((sc % 2 ^ 4) * 2 ^ 16 + d % 2 ^ 16))) =
      (s % 2 ^ 8) * 2 ^ 36 +
        ((t % 2 ^ 8) * 2 ^ 28 +
          ((sec % 2 ^ 8) * 2 ^ 20 + ((sc % 2 ^ 4) * 2 ^ 16 + d % 2 ^ 16))) :=
    lor_split _ _ _ b3
  have b4 : (s % 2 ^ 8) * 2 ^ 36 +
        ((t % 2 ^ 8) * 2 ^ 28 +
          ((sec % 2 ^ 8) * 2 ^ 20 + ((sc % 2 ^ 4) * 2 ^ 16 + d % 2 ^ 16))) < 2 ^ 44 :=
    field_sum_lt _ _ _ _ _ (Nat.mod_lt _ (Nat.two_pow_pos _)) b3 (by norm_num)
  have h5 : ((m % 2 ^ 8) <<< 44) |||
        ((s % 2 ^ 8) * 2 ^ 36 +
          ((t % 2 ^ 8) * 2 ^ 28 +
            ((sec % 2 ^ 8) * 2 ^ 20 + ((sc % 2 ^ 4) * 2 ^ 16 + d % 2 ^ 16)))) =
      (m % 2 ^ 8) * 2 ^ 44 +
        ((s % 2 ^ 8) * 2 ^ 36 +
          ((t % 2 ^ 8) * 2 ^ 28 +
            ((sec % 2 ^ 8) * 2 ^ 20 + ((sc % 2 ^ 4) * 2 ^ 16 + d % 2 ^ 16)))) :=
    lor_split _ _ _ b4
  have b5 : (m % 2 ^ 8) * 2 ^ 44 +
        ((s % 2 ^ 8) * 2 ^ 36 +
          ((t % 2 ^ 8) * 2 ^ 28 +
            ((sec % 2 ^ 8) * 2 ^ 20 + ((sc % 2 ^ 4) * 2 ^ 16 + d % 2 ^ 16)))) < 2 ^ 52 :=
    field_sum_lt _ _ _ _ _ (Nat.mod_lt _ (Nat.two_pow_pos _)) b4 (by norm_num)
  have h6 : ((p % 2 ^ 8) <<< 52) |||
        ((m % 2 ^ 8) * 2 ^ 44 +
          ((s % 2 ^ 8) * 2 ^ 36 +
            ((t % 2 ^ 8) * 2 ^ 28 +
              ((sec % 2 ^ 8) * 2 ^ 20 + ((sc % 2 ^ 4) * 2 ^ 16 + d % 2 ^ 16))))) =
      (p % 2 ^ 8) * 2 ^ 52 +
        ((m % 2 ^ 8) * 2 ^ 44 +
          ((s % 2 ^ 8) * 2 ^ 36 +
            ((t % 2 ^ 8) * 2 ^ 28 +
              ((sec % 2 ^ 8) * 2 ^ 20 + ((sc % 2 ^ 4) * 2 ^ 16 + d % 2 ^ 16))))) :=
    lor_split _ _ _ b5
  have b6 : (p % 2 ^ 8) * 2 ^ 52 +
        ((m % 2 ^ 8) * 2 ^ 44 +
          ((s % 2 ^ 8) * 2 ^ 36 +
            ((t % 2 ^ 8) * 2 ^ 28 +
              ((sec % 2 ^ 8) * 2 ^ 20 + ((sc % 2 ^ 4) * 2 ^ 16 + d % 2 ^ 16))))) < 2 ^ 60 :=
    field_sum_lt _ _ _ _ _ (Nat.mod_lt _ (Nat.two_pow_pos _)) b5 (by norm_num)
  have h7 : ((l % 2 ^ 4) <<< 60) |||
        ((p % 2 ^ 8) * 2 ^ 52 +
          ((m % 2 ^ 8) * 2 ^ 44 +
            ((s % 2 ^ 8) * 2 ^ 36 +
              ((t % 2 ^ 8) * 2 ^ 28 +
                ((sec % 2 ^ 8) * 2 ^ 20 + ((sc % 2 ^ 4) * 2 ^ 16 + d % 2 ^ 16)))))) =
      (l % 2 ^ 4) * 2 ^ 60 +
        ((p % 2 ^ 8) * 2 ^ 52 +
          ((m % 2 ^ 8) * 2 ^ 44 +
            ((s % 2 ^ 8) * 2 ^ 36 +
              ((t % 2 ^ 8) * 2 ^ 28 +
                ((sec % 2 ^ 8) * 2 ^ 20 + ((sc % 2 ^ 4) * 2 ^ 16 + d % 2 ^ 16)))))) :=
    lor_split _ _ _ b6
  have b7 : (l % 2 ^ 4) * 2 ^ 60 +
        ((p % 2 ^ 8) * 2 ^ 52 +
          ((m % 2 ^ 8) * 2 ^ 44 +
            ((s % 2 ^ 8) * 2 ^ 36 +
              ((t % 2 ^ 8) * 2 ^ 28 +
                ((sec % 2 ^ 8) * 2 ^ 20 + ((sc % 2 ^ 4) * 2 ^ 16 + d % 2 ^ 16)))))) < 2 ^ 64 :=
    field_sum_lt _ _ _ _ _ (Nat.mod_lt _ (Nat.two_pow_pos _)) b6 (by norm_num)
  rw [h1, h2, h3, h4, h5, h6, h7, Nat.mod_eq_of_lt b7]
  ring

/-- What the depth key actually computes: shifting the 32-bit depth
field by 52 in wrapping 64-bit arithmetic keeps only its low 12 bits,
OR-ed into bits 52-63 — overlapping the layer nibble at bits 60-63. -/
theorem depthKey_truncates (l d : Nat) :
    depthKey l d = ((l % 2 ^ 4) <<< 60) ||| ((d % 2 ^ 12) <<< 52) := by
  unfold depthKey u64
  rw [and_mask_4 l, and_mask_32 d]
  rw [Nat.mod_eq_of_lt (shift_field_lt l 4 60 64 (by norm_num))]
  have hsplit : ((d % 2 ^ 32) <<< 52) % 2 ^ 64 = (d % 2 ^ 12) <<< 52 := by
    rw [Nat.shiftLeft_eq, Nat.shiftLeft_eq,
        (by norm_num : (2 : Nat) ^ 64 = 2 ^ 12 * 2 ^ 52),
        Nat.mul_mod_mul_right,
        Nat.mod_mod_of_dvd d (pow_dvd_pow 2 (by norm_num))]
  rw [hsplit]
  rw [Nat.mod_eq_of_lt
    (Nat.or_lt_two_pow (shift_field_lt l 4 60 64 (by norm_num))
      (shift_field_lt d 12 52 64 (by norm_num)))]

/-- C2: the claim fails on the code; the spec is the intent and the code
a slip.  For the transparent record at depth `d = 1.0` (IEEE-754 binary32
pattern `0x3F800000`) in compact layer 0, the claimed layout
`[ layer:4 | invertedDepth:32 | reserved:28 ]` gives
`0x0C07FFFFF0000000`, but the code computes key `0`: the depth pattern is
never complemented, and `(depthBits & 0xFFFFFFFF) << 52` in 64-bit
arithmetic discards the pattern's top 20 bits (the code's own comment
declares a 32-bit depth field at `[ layer:4 | depth:32 | ??:28 ]`), so
larger distances do not yield smaller keys. -/
theorem C2_depth_key_not_inverted_layout :
    depthKey 0 1065353216 = 0 ∧
    specDepthKey 0 1065353216 = 866942928000385024 ∧
    depthKey 0 1065353216 ≠ specDepthKey 0 1065353216 :=
  ⟨by decide, by decide, by decide⟩

/-- C5: the identity sort key packs, from most significant to least
significant, layer (4 bits), pipeline (8), material (8), shader (8),
texture (8), secondary resource (8), scissor (4, zero) and depth (16,
zero); consequently, within a layer, opaque records order ascending by
the tuple (pipeline, material, shader, texture, secondary). -/
theorem C5_identity_key_layout (l p m s t x p' m' s' t' x' : Nat)
    (hl : l < 16) (hp : p < 256) (hm : m < 256) (hs : s < 256)
    (ht : t < 256) (hx : x < 256) (hp' : p' < 256) (hm' : m' < 256)
    (hs' : s' < 256) (ht' : t' < 256) (hx' : x' < 256) :
    identityKey l p m s t x 0 0 =
      l * 2 ^ 60 + p * 2 ^ 52 + m * 2 ^ 44 + s * 2 ^ 36 + t * 2 ^ 28 +
        x * 2 ^ 20 ∧
    ((p < p' ∨ (p = p' ∧ (m < m' ∨ (m = m' ∧ (s < s' ∨ (s = s' ∧
        (t < t' ∨ (t = t' ∧ x < x')))))))) →
      identityKey l p m s t x 0 0 < identityKey l p' m' s' t' x' 0 0) := by
  constructor
  · rw [identityKey_eq l p m s t x 0 0]
    norm_num
    omega
  · intro hlex
    rw [identityKey_eq l p m s t x 0 0, identityKey_eq l p' m' s' t' x' 0 0]
    norm_num
    omega

/-- Witness for C5 at concrete indices. -/
theorem C5_identity_key_layout_witness :
    identityKey 1 2 3 4 5 6 0 0 =
      1 * 2 ^ 60 + 2 * 2 ^ 52 + 3 * 2 ^ 44 + 4 * 2 ^ 36 + 5 * 2 ^ 28 +
        6 * 2 ^ 20 ∧
    ((2 < 2 ∨ (2 = 2 ∧ (3 < 3 ∨ (3 = 3 ∧ (4 < 4 ∨ (4 = 4 ∧
        (5 < 5 ∨ (5 = 5 ∧ 6 < 7)))))))) →
      identityKey 1 2 3 4 5 6 0 0 < identityKey 1 2 3 4 5 7 0 0) :=
  C5_identity_key_layout 1 2 3 4 5 6 2 3 4 5 7 (by decide) (by decide)
    (by decide) (by decide) (by decide) (by decide) (by decide) (by decide)
    (by decide) (by decide) (by decide)

attribute [local semireducible] Rat.add Rat.mul Rat.sub Rat.inv

/-- C1: the claim fails on the code; the spec (scenario S4 and the
"furthest to nearest" doc comment on `Sort`) is the intent and the code a
slip.  Under the orthographic viewer, after `Sort`, the layer's
depth-sorted sprites remain in the order nearest-first (`[0, 1]`: the
sprite at `z = 1` before the sprite at `z = 2`), although the second
sprite has the strictly greater near-plane distance — the comparator in
`SortForOrthographic` orders by *ascending* plane distance, front to
back, not back to front. -/
theorem C1_orthographic_sorts_front_to_back :
    (((sortQueue (fun _ => 0) C1viewer C1queue initialCaches).1.layers.lookup 0).map
        (fun L => L.depthSortedSprites)) = some [0, 1] ∧
    C1viewer.nearPlane.Distance
        ((C1spriteData.getD 1 default).vertices.getD 0 default).position >
      C1viewer.nearPlane.Distance
        ((C1spriteData.getD 0 default).vertices.getD 0 default).position :=
  ⟨by decide, by decide⟩

/-- C3: the claim fails on the code; the spec is the intent and the code
a slip.  The layer-index map of `Sort` is a function-local `static`
filled from `m_renderLayers` only on the very first call (the `once`
flag).  Frame 1 submits a model on layer 10 and sorts (layer 10 gets the
only compact index, 0).  After a soft clear, frame 2 submits a model on
layer 10 and then one on layer 5; during the second `Sort` the unordered
map's `operator[]` default-inserts compact index 0 for the unseen layer
5, tying it with layer 10, so the key order falls to the
material/pipeline indices and the layer-10 record precedes the layer-5
record — although 5 < 10, and no fresh ascending `0..N-1` assignment ever
happened. -/
theorem C3_layer_index_not_reassigned :
    C3afterSort2.1.models.map (fun r => r.layerIndex) = [10, 5] ∧
    C3afterSort2.2.layers.lookup 5 = some 0 ∧
    C3afterSort2.2.layers.lookup 10 = some 0 :=
  ⟨by decide, by decide, by decide⟩

/-- C4: the claim fails on the code; the spec is the intent and the code
a slip.  `OnMaterialInvalidation` erases the destroyed material only from
the legacy per-layer `materialMap`s (which no submission path of this
file populates) and never touches the buckets the `Add` functions fill:
after the handler runs, the legacy billboard map has indeed dropped the
material, but the `models` bucket still holds a record referencing it —
a dangling reference. -/
theorem C4_invalidation_leaves_bucket_reference :
    (((OnMaterialInvalidation C4queue C4mat).layers.lookup 0).map
        (fun L => L.billboards.map fun pp => (pp.1, pp.2.materialMap))) =
      some [(2, [])] ∧
    (OnMaterialInvalidation C4queue C4mat).models.map (fun r => r.material) =
      [C4mat] :=
  ⟨by decide, by decide⟩

/-- C6: the claim fails on the code; the spec is the intent and the code
a slip.  Submitting 2 opaque instances into a pool holding 1 entry grows
the pool to 3 entries and records the batch descriptor
`(offset, count) = (1, 2)` as claimed — but the copy pointer
`&m_billboards.back() - billboardCount` addresses slot `offset - 1`, so
the instances land at slots 0 and 1 (clobbering the pre-existing entry)
and slot `offset + count - 1 = 2` keeps its value-initialised contents:
the pool slice at `offset..offset+count-1` is `[B, default]`, not the
submitted `[A, B]`. -/
theorem C6_pool_copy_shifted_one_slot :
    C6result.map (fun q => q.m_billboards) =
      some [C6instA, C6instB, default] ∧
    C6result.map (fun q => q.billboards.map fun b =>
        (b.billboardIndex, b.billboardCount)) = some [(1, 2)] ∧
    C6result.map (fun q => (q.m_billboards.drop 1).take 2) ≠
      some [C6instA, C6instB] :=
  ⟨by decide, by decide, by decide⟩

/-- C7 (counterexample): the claim is false as stated.  The per-layer
depth sorts use `std::sort`, whose contract guarantees only a
comparator-sorted permutation.  For the two depth-sorted meshes of
`C7data` — distinct records with identical bounding-sphere centres, hence
equal comparator values — the output `[1, 0]` is a permitted result of
the `std::sort` call of `SortForPerspective` on the submission order
`[0, 1]`, and it does not preserve submission order. -/
theorem C7_std_sort_may_reorder_equal_records :
    StdSortPermitted (perspMeshCmp C7eye C7data) [0, 1] [1, 0] ∧
    C7eye.SquaredDistance (C7data.getD 0 default).obbSphere.GetPosition =
      C7eye.SquaredDistance (C7data.getD 1 default).obbSphere.GetPosition ∧
    ([1, 0] : List Nat) ≠ [0, 1] :=
  ⟨⟨List.Perm.swap 1 0 [], by decide⟩, by decide, by decide⟩

/-- C7 (amended): the bucket sorts — modelled from the spec as stable,
the container being declared outside the sources — do preserve submission
order on equal 64-bit keys: two records appearing in this order in a
bucket with equal computed keys still appear in this order after
`stableSortByKey`.  The per-layer `std::sort` passes guarantee only a
comparator-sorted permutation. -/
theorem C7_amended_bucket_sort_stable {α : Type} (keyed : List (Nat × α))
    (a b : Nat × α) (hk : a.1 = b.1) (hsub : List.Sublist [a, b] keyed) :
    List.Sublist [a, b] (stableSortByKey keyed) := by
  unfold stableSortByKey
  exact List.pair_sublist_insertionSort (le_of_eq hk) hsub

/-- Witness for the amended C7 at a concrete keyed bucket. -/
theorem C7_amended_bucket_sort_stable_witness :
    List.Sublist [((3, 0) : Nat × Nat), (3, 1)] (stableSortByKey [(3, 0), (3, 1)]) :=
  C7_amended_bucket_sort_stable [(3, 0), (3, 1)] (3, 0) (3, 1) rfl
    (List.Sublist.refl _)

/-- C8: every stream passed as null is substituted with a fixed
per-instance value that appears in the packed data of every produced
billboard: a null rotation stream yields `sinCos = (0, 1)` (directly, or
through the angle default `0` and the `ComputeSinCos` kernel), a null
colour stream yields `Color::White`, and a null alpha stream yields alpha
`1`, i.e. colour `(1, 1, 1, 1) = White`. -/
theorem C8_null_stream_defaults :
    (∀ (count : Nat) (positions : Nat → Vector3f) (sizes : Nat → Vector2f)
        (bd : BillboardData),
        bd ∈ billboardStreamsSC count positions sizes none none →
          bd.sinCos = ⟨0, 1⟩ ∧ bd.color = Color.White) ∧
    (∀ (count : Nat) (positions : Nat → Vector3f) (sizes : Nat → Vector2f)
        (bd : BillboardData),
        bd ∈ billboardStreamsSA count positions sizes none none →
          bd.sinCos = ⟨0, 1⟩ ∧ bd.color = ComputeColor 1) ∧
    (∀ (csc : ℚ → Vector2f) (count : Nat) (positions : Nat → Vector3f)
        (sizes : Nat → Vector2f) (bd : BillboardData), csc 0 = ⟨0, 1⟩ →
        bd ∈ billboardStreamsAA csc count positions sizes none none →
          bd.sinCos = ⟨0, 1⟩ ∧ bd.color = ComputeColor 1) ∧
    ComputeColor 1 = Color.White := by
  refine ⟨?_, ?_, ?_, rfl⟩
  · intro count positions sizes bd hbd
    simp only [billboardStreamsSC, producedBillboards, Option.getD_none,
      List.mem_map, List.mem_range] at hbd
    obtain ⟨i, -, rfl⟩ := hbd
    exact ⟨rfl, rfl⟩
  · intro count positions sizes bd hbd
    simp only [billboardStreamsSA, producedBillboards, Option.getD_none,
      List.mem_map, List.mem_range] at hbd
    obtain ⟨i, -, rfl⟩ := hbd
    exact ⟨rfl, rfl⟩
  · intro csc count positions sizes bd hcsc hbd
    simp only [billboardStreamsAA, producedBillboards, Option.getD_none,
      List.mem_map, List.mem_range] at hbd
    obtain ⟨i, -, rfl⟩ := hbd
    exact ⟨hcsc, rfl⟩

/-- Witness for C8 at one-instance calls of each overload. -/
theorem C8_null_stream_defaults_witness :
    (C8bd.sinCos = ⟨0, 1⟩ ∧ C8bd.color = Color.White) ∧
    (C8bd.sinCos = ⟨0, 1⟩ ∧ C8bd.color = ComputeColor 1) ∧
    (C8bd.sinCos = ⟨0, 1⟩ ∧ C8bd.color = ComputeColor 1) ∧
    ComputeColor 1 = Color.White :=
  ⟨C8_null_stream_defaults.1 1 C8positions C8sizes C8bd (by decide),
   C8_null_stream_defaults.2.1 1 C8positions C8sizes C8bd (by decide),
   C8_null_stream_defaults.2.2.1 C8trig 1 C8positions C8sizes C8bd (by decide)
     (by decide),
   C8_null_stream_defaults.2.2.2⟩

/-- In an association list whose keys are duplicate-free, a key
determines its entry. -/
theorem keyed_mem_unique {κ β : Type} {l : List (κ × β)}
    (h : (l.map Prod.fst).Nodup) {k : κ} {a b : β}
    (ha : (k, a) ∈ l) (hb : (k, b) ∈ l) : a = b := by
  induction l with
  | nil => cases ha
  | cons p t ih =>
    simp only [List.map_cons, List.nodup_cons] at h
    rcases List.mem_cons.mp ha with hpa | hta
    · rcases List.mem_cons.mp hb with hpb | htb
      · rw [← hpa] at hpb
        exact ((Prod.mk.injEq _ _ _ _ ▸ hpb).2).symm
      · exfalso
        apply h.1
        rw [← hpa]
        exact List.mem_map.mpr ⟨(k, b), htb, rfl⟩
    · rcases List.mem_cons.mp hb with hpb | htb
      · exfalso
        apply h.1
        rw [← hpb]
        exact List.mem_map.mpr ⟨(k, a), hta, rfl⟩
      · exact ih h.2 hta htb

/-- C9: a full clear empties the billboard pool; a soft clear increments
the `clearCount` of every retained layer and discards a layer exactly
when its incremented count would exceed the threshold 100 (the code
tests `layer.clearCount++ >= 100`, i.e. retains the layer up to and
including its 100th consecutive soft clear); and the static identity
tables of `Sort` are untouched by `Clear`, so their sizes never
decrease across a soft clear. -/
theorem C9_clear_soft_hard (q : ForwardRenderQueue) (c : SortCaches)
    (hkeys : (q.layers.map Prod.fst).Nodup) :
    (clearQueue q true).m_billboards = [] ∧
    (∀ k L, (k, L) ∈ q.layers → 100 ≤ L.clearCount →
        ∀ L', (k, L') ∉ (clearQueue q false).layers) ∧
    (∀ k L, (k, L) ∈ q.layers → L.clearCount < 100 →
        (k, softClearLayer L) ∈ (clearQueue q false).layers ∧
        (softClearLayer L).clearCount = L.clearCount + 1) ∧
    (∀ k L', (k, L') ∈ (clearQueue q false).layers →
        ∃ L, (k, L) ∈ q.layers ∧ L.clearCount < 100 ∧ L' = softClearLayer L) ∧
    (clearSystem (q, c) false).2 = c := by
  have hlf : (clearQueue q false).layers =
      q.layers.filterMap (fun kl =>
        if 100 ≤ kl.2.clearCount then none
        else some (kl.1, softClearLayer kl.2)) := rfl
  refine ⟨rfl, ?_, ?_, ?_, rfl⟩
  · intro k L hmem hge L' hmem'
    rw [hlf] at hmem'
    obtain ⟨⟨k0, L0⟩, hmem0, hf⟩ := List.mem_filterMap.mp hmem'
    by_cases h100 : 100 ≤ L0.clearCount
    · simp [h100] at hf
    · simp only [h100, if_false, Option.some.injEq, Prod.mk.injEq] at hf
      obtain ⟨hk0, -⟩ := hf
      subst hk0
      have heq := keyed_mem_unique hkeys hmem0 hmem
      rw [heq] at h100
      exact h100 hge
  · intro k L hmem hlt
    refine ⟨?_, rfl⟩
    rw [hlf]
    exact List.mem_filterMap.mpr ⟨(k, L), hmem, if_neg (Nat.not_le.mpr hlt)⟩
  · intro k L' hmem'
    rw [hlf] at hmem'
    obtain ⟨⟨k0, L0⟩, hmem0, hf⟩ := List.mem_filterMap.mp hmem'
    by_cases h100 : 100 ≤ L0.clearCount
    · simp [h100] at hf
    · simp only [h100, if_false, Option.some.injEq, Prod.mk.injEq] at hf
      obtain ⟨hk0, hL'⟩ := hf
      subst hk0
      exact ⟨L0, hmem0, by omega, hL'.symm⟩

/-- Witness for C9 on a queue with one hot and one cold layer. -/
theorem C9_clear_soft_hard_witness :
    (clearQueue C9queue true).m_billboards = [] ∧
    (∀ k L, (k, L) ∈ C9queue.layers → 100 ≤ L.clearCount →
        ∀ L', (k, L') ∉ (clearQueue C9queue false).layers) ∧
    (∀ k L, (k, L) ∈ C9queue.layers → L.clearCount < 100 →
        (k, softClearLayer L) ∈ (clearQueue C9queue false).layers ∧
        (softClearLayer L).clearCount = L.clearCount + 1) ∧
    (∀ k L', (k, L') ∈ (clearQueue C9queue false).layers →
        ∃ L, (k, L) ∈ C9queue.layers ∧ L.clearCount < 100 ∧
          L' = softClearLayer L) ∧
    (clearSystem (C9queue, initialCaches) false).2 = initialCaches :=
  C9_clear_soft_hard C9queue initialCaches (by decide)

/-- C10: with `NAZARA_GRAPHICS_SAFE` compiled in, `AddDrawable` called
with a null drawable reports an error (`NazaraError`, the `true` flag)
and returns without modifying the queue: no record is added to any
bucket and all other state is unchanged. -/
theorem C10_null_drawable_is_noop (q : ForwardRenderQueue) (renderOrder : Int) :
    AddDrawable q renderOrder none = (q, true) := rfl
